import Mathlib

/-!
Shallow embedding of `src/main.py` (gustav_tools): a Salesforce case monitor
that polls for newly created open cases and relays them to a Microsoft Teams
webhook, either in an infinite loop or in single-shot mode (`--once`).

External effects (environment variables, the Salesforce login and query calls,
HTTP POSTs, wall-clock reads) are modelled as oracle inputs collected in a
`World` structure; the program's own logic is translated function by function.
Machine time values are modelled as `Nat` seconds since the Unix epoch.
-/

namespace GustavTools

/-- Environment variables read via `os.getenv`: `none` models an unset
variable. -/
structure Env where
  sfUsername : Option String
  sfPassword : Option String
  sfToken : Option String
  teamsWebhookUrl : Option String
deriving Repr

/-- Opaque session handle returned by the `Salesforce(...)` constructor. -/
structure Session where
  handle : Nat
deriving Repr, DecidableEq

/-- Outcome of the external `Salesforce(username, password, security_token)`
login call: success, a `SalesforceAuthenticationFailed` exception, or any
other exception. -/
inductive LoginResult where
  | success (sf : Session)
  | authFailed (e : String)
  | otherError (e : String)
deriving Repr, DecidableEq

/-- Embedding of `connect_to_salesforce` (src/main.py lines 14-32): the
try/except returns the session on success and `None` on either exception
branch. -/
def connect_to_salesforce (outcome : LoginResult) : Option Session :=
  match outcome with
  | .success sf => some sf
  | .authFailed _ => none
  | .otherError _ => none

/-- JSON payload `{"text": message}` posted to the Teams webhook. -/
structure Payload where
  text : String
deriving Repr, DecidableEq

/-- Outcome of the external `requests.post` call: an HTTP response with a
status code, or a raised `requests.exceptions.RequestException`. -/
inductive PostResult where
  | response (status : Nat)
  | transportError (e : String)
deriving Repr, DecidableEq

/-- Observable effects of a run, in program order. -/
inductive Event where
  | queried (q : String)
  | notified (msg : String)
  | posted (url : String) (p : Payload)
  | slept (secs : Nat)
deriving Repr, DecidableEq

/-- Whether `pat` occurs as a contiguous sublist of the second argument. -/
def containsSub (pat : List Char) : List Char → Bool
  | [] => pat.isEmpty
  | c :: rest => List.isPrefixOf pat (c :: rest) || containsSub pat rest

/-- Python's substring test `pat in s`: `pat` occurs contiguously in `s`. -/
def strContains (s pat : String) : Bool :=
  containsSub pat.data s.data

/-- Embedding of `response.raise_for_status()`: the `requests` library raises
`HTTPError` exactly for status codes in [400, 600). -/
def raisesForStatus (status : Nat) : Bool :=
  400 ≤ status && status < 600

/-- Embedding of `send_teams_notification` (src/main.py lines 34-54).
Returns the Python return value together with the list of HTTP POSTs that
were attempted (`Event.posted` entries). `not webhook_url` in Python is true
for both an unset variable and the empty string. -/
def send_teams_notification (env : Env) (post : String → Payload → PostResult)
    (message : String) : Bool × List Event :=
  match env.teamsWebhookUrl with
  | none => (false, [])
  | some webhook_url =>
    if webhook_url == "" || strContains webhook_url "your_teams_webhook_url" then
      (false, [])
    else
      let payload : Payload := ⟨message⟩
      match post webhook_url payload with
      | .transportError _ => (false, [Event.posted webhook_url payload])
      | .response status =>
        if raisesForStatus status then (false, [Event.posted webhook_url payload])
        else (true, [Event.posted webhook_url payload])

/-- A Salesforce case record as selected by the SOQL query: fields
`Id, CaseNumber, Subject, Description, CreatedDate`, plus the `IsClosed`
flag used in the filter. `Subject` is optional because the Python code reads
it with `case.get('Subject', 'Sem Assunto')`. `CreatedDate` is seconds since
the epoch. -/
structure Case where
  Id : String
  CaseNumber : String
  Subject : Option String
  Description : Option String
  CreatedDate : Nat
  IsClosed : Bool
deriving Repr, DecidableEq

/-- Outcome of the external `sf.query(...)` call: a successful response whose
dict may or may not carry a `records` key, or a raised exception. -/
inductive QueryOutcome where
  | ok (records : Option (List Case))
  | err (e : String)
deriving Repr, DecidableEq

/-- The SOQL query string built in `get_new_cases` (src/main.py lines 62-67). -/
def caseQuery (last_check_time : String) : String :=
  "SELECT Id, CaseNumber, Subject, Description, CreatedDate " ++
  "FROM Case " ++
  "WHERE IsClosed = false AND CreatedDate > " ++ last_check_time ++ " " ++
  "ORDER BY CreatedDate DESC"

/-- Embedding of `get_new_cases` (src/main.py lines 56-74): on success returns
`results.get('records', [])`; on any exception returns `[]`. The query
oracle maps the query string to the remote outcome. -/
def get_new_cases (query : String → QueryOutcome) (last_check_time : String) :
    List Case :=
  match query (caseQuery last_check_time) with
  | .ok records => records.getD []
  | .err _ => []

/-- Semantics of the SOQL `WHERE` clause of `caseQuery`: a case matches a
watermark `w` iff it is open and strictly newer than `w`. Modelled from the
query string, since the filter itself runs on the Salesforce server. -/
def caseMatches (w : Nat) (c : Case) : Bool :=
  !c.IsClosed && decide (w < c.CreatedDate)

/-! ## Time formatting

`time.strftime('%Y-%m-%dT%H:%M:%SZ', time.gmtime(t))` for a `Nat` number of
seconds since the epoch. Calendar conversion follows the standard
days-to-civil algorithm underlying `gmtime`. -/

/-- The decimal digit character for `n < 10`. -/
def digitChar (n : Nat) : Char :=
  Char.ofNat (48 + n)

/-- Decimal digits of `n`, most significant first, with a fuel bound on the
number of digits (structural recursion; `n + 1` units of fuel always
suffice). -/
def decDigitsAux : Nat → Nat → List Char
  | 0, _ => []
  | fuel + 1, n =>
    if n < 10 then [digitChar n] else decDigitsAux fuel (n / 10) ++ [digitChar (n % 10)]

/-- Decimal digits of `n`, most significant first. -/
def decDigits (n : Nat) : List Char :=
  decDigitsAux (n + 1) n

/-- Decimal rendering of a natural number (the `%d`-style conversion). -/
def toDecString (n : Nat) : String :=
  ⟨decDigits n⟩

/-- Two-digit zero-padded field (`%m`, `%d`, `%H`, `%M`, `%S`). -/
def pad2 (n : Nat) : String :=
  if n < 10 then "0" ++ toDecString n else toDecString n

/-- Days since 1970-01-01 to a civil (year, month, day) triple, the
days-to-civil conversion performed by `gmtime`. -/
def civilFromDays (z : Nat) : Nat × Nat × Nat :=
  let zs := z + 719468
  let era := zs / 146097
  let doe := zs % 146097
  let yoe := (doe - doe / 1460 + doe / 36524 - doe / 146096) / 365
  let doy := doe - (365 * yoe + yoe / 4 - yoe / 100)
  let mp := (5 * doy + 2) / 153
  let d := doy - (153 * mp + 2) / 5 + 1
  let m := if mp < 10 then mp + 3 else mp - 9
  let y := era * 400 + yoe + (if m ≤ 2 then 1 else 0)
  (y, m, d)

/-- Embedding of `time.strftime('%Y-%m-%dT%H:%M:%SZ', time.gmtime(t))`. -/
def formatISO (t : Nat) : String :=
  let days := t / 86400
  let secs := t % 86400
  let c := civilFromDays days
  toDecString c.1 ++ "-" ++ pad2 c.2.1 ++ "-" ++ pad2 c.2.2 ++ "T" ++
    pad2 (secs / 3600) ++ ":" ++ pad2 (secs % 3600 / 60) ++ ":" ++
    pad2 (secs % 60) ++ "Z"

/-- Checks that a string has the shape `YYYY-MM-DDThh:mm:ssZ` of a
CRM-compatible ISO-8601 UTC date-time. -/
def isISO8601UTC (s : String) : Bool :=
  match s.data with
  | [y1, y2, y3, y4, c1, m1, m2, c2, d1, d2, c3, h1, h2, c4, n1, n2, c5, s1, s2, c6] =>
    y1.isDigit && y2.isDigit && y3.isDigit && y4.isDigit &&
    m1.isDigit && m2.isDigit && d1.isDigit && d2.isDigit &&
    h1.isDigit && h2.isDigit && n1.isDigit && n2.isDigit &&
    s1.isDigit && s2.isDigit &&
    c1 == '-' && c2 == '-' && c3 == 'T' && c4 == ':' && c5 == ':' && c6 == 'Z'
  | _ => false

end GustavTools

namespace GustavTools

/-! ## The `main` function

`main` (src/main.py lines 76-129) is embedded as a function of a `World` of
oracle inputs, the argument vector, and a fuel bound on the number of loop
iterations that are unfolded (the Python loop mode runs forever; every finite
prefix of its behaviour is `main` at some fuel). It returns the trace of
observable events together with the final watermark (`none` when the process
returned before the watermark was computed). -/

/-- Oracle inputs for one process run: the environment, the outcome of the
login call, per-cycle query outcomes, the HTTP POST oracle, the wall-clock
time at process start and at the end of each cycle. -/
structure World where
  env : Env
  login : LoginResult
  sfQuery : Nat → String → QueryOutcome
  post : String → Payload → PostResult
  startTime : Nat
  cycleTime : Nat → Nat

/-- The hard-coded instance URL (src/main.py line 12). -/
def SF_INSTANCE_URL : String := "https://dynamoxbr.lightning.force.com"

/-- The Lightning deep link built at src/main.py line 111. -/
def caseLink (case_id : String) : String :=
  SF_INSTANCE_URL ++ "/lightning/r/Case/" ++ case_id ++ "/view"

/-- The notification message built at src/main.py line 113. -/
def caseMessage (c : Case) : String :=
  "🔔 **Novo Caso Recebido!**\n\n**Número:** " ++ c.CaseNumber ++
  "\n**Assunto:** " ++ (c.Subject.getD "Sem Assunto") ++
  "\n[Visualizar no Salesforce](" ++ caseLink c.Id ++ ")"

/-- The startup message sent in loop mode (src/main.py line 91). -/
def startupMessage : String := "🤖 Script de Monitoramento de Casos Iniciado."

/-- One call of the Notifier as it appears to the trace: the `notified` event
for the invocation itself followed by whatever HTTP POSTs it attempted. -/
def notifierEvents (w : World) (msg : String) : List Event :=
  Event.notified msg :: (send_teams_notification w.env w.post msg).2

/-- One iteration of the `while True` body (src/main.py lines 98-121), minus
the break/sleep tail: fetch, notify each case in order, and update the
watermark only when the fetch was non-empty. `i` is the cycle index and `wm`
the current watermark in seconds. -/
def loopBody (w : World) (i : Nat) (wm : Nat) : List Event × Nat :=
  let new_cases := get_new_cases (w.sfQuery i) (formatISO wm)
  let queryEv := Event.queried (caseQuery (formatISO wm))
  if new_cases.isEmpty then
    ([queryEv], wm)
  else
    (queryEv :: (new_cases.map (fun c => notifierEvents w (caseMessage c))).flatten,
     w.cycleTime i)

/-- The `while True` loop (src/main.py lines 98-129) unfolded `fuel` times:
run the body; in single-shot mode break, otherwise sleep 300 seconds and
repeat. -/
def mainLoop (w : World) (run_once : Bool) : Nat → Nat → Nat → List Event × Nat
  | 0, _, wm => ([], wm)
  | fuel + 1, i, wm =>
    let r := loopBody w i wm
    if run_once then r
    else
      let rest := mainLoop w run_once fuel (i + 1) r.2
      (r.1 ++ Event.slept 300 :: rest.1, rest.2)

/-- Embedding of `main` (src/main.py lines 76-129). Returns the event trace
and `some` final watermark, or `([], none)` when authentication failed and
the function returned at line 87. -/
def main (w : World) (argv : List String) (fuel : Nat) : List Event × Option Nat :=
  let run_once := argv.contains "--once"
  match connect_to_salesforce w.login with
  | none => ([], none)
  | some _sf =>
    let startupEvents := if run_once then [] else notifierEvents w startupMessage
    let lookback_minutes : Nat := if run_once then 15 else 5
    let last_check_time := w.startTime - lookback_minutes * 60
    let r := mainLoop w run_once fuel 0 last_check_time
    (startupEvents ++ r.1, some r.2)

/-- Number of fetches (queries issued) in a trace. -/
def countQueries (es : List Event) : Nat :=
  (es.filter (fun e => match e with | .queried _ => true | _ => false)).length

/-- Number of sleeps in a trace. -/
def countSleeps (es : List Event) : Nat :=
  (es.filter (fun e => match e with | .slept _ => true | _ => false)).length

/-- The Notifier invocations of a trace, in order. -/
def notifiedMsgs (es : List Event) : List String :=
  es.filterMap (fun e => match e with | .notified m => some m | _ => none)

/-- The HTTP POSTs of a trace, in order. -/
def postedPayloads (es : List Event) : List Payload :=
  es.filterMap (fun e => match e with | .posted _ p => some p | _ => none)

end GustavTools

namespace GustavTools

/-! ## Concrete fixtures used by witnesses and counterexamples -/

/-- POST oracle that always answers HTTP 200. -/
def postOkOracle : String → Payload → PostResult := fun _ _ => PostResult.response 200

/-- POST oracle that always raises a transport error. -/
def postFailOracle : String → Payload → PostResult :=
  fun _ _ => PostResult.transportError "timeout"

/-- Fully configured environment. -/
def envFull : Env := ⟨some "user", some "pass", some "tok", some "https://example.com/hook"⟩

/-- Environment with the webhook URL unset. -/
def envNoHook : Env := ⟨some "user", some "pass", some "tok", none⟩

/-- A case created at 2024-01-01T00:01:00Z. -/
def caseA : Case := ⟨"500A", "00001000", some "Server down", none, 1704067260, false⟩

/-- A case with no subject, created at 2024-01-01T00:02:00Z. -/
def caseB : Case := ⟨"500B", "00001001", none, none, 1704067320, false⟩

/-- World whose fetches always return zero records. -/
def emptyFetchWorld : World :=
  ⟨envFull, .success ⟨1⟩, fun _ _ => .ok (some []), postOkOracle, 1704067500,
   fun _ => 1704068000⟩

/-- World whose fetches return two records (newest first). -/
def twoCaseWorld : World :=
  ⟨envFull, .success ⟨1⟩, fun _ _ => .ok (some [caseB, caseA]), postOkOracle, 1704067500,
   fun _ => 1704068000⟩

/-- World with two records fetched and a failing webhook transport. -/
def failPostWorld : World :=
  ⟨envFull, .success ⟨1⟩, fun _ _ => .ok (some [caseB, caseA]), postFailOracle, 1704067500,
   fun _ => 1704068000⟩

/-- World whose login raises `SalesforceAuthenticationFailed`. -/
def authFailWorld : World :=
  ⟨envFull, .authFailed "bad creds", fun _ _ => .ok (some [caseB, caseA]), postOkOracle,
   1704067500, fun _ => 1704068000⟩

/-- Query oracle that always raises. -/
def qErrOracle : String → QueryOutcome := fun _ => QueryOutcome.err "boom"

/-! ## Helper lemmas -/

theorem send_snd_cases (env : Env) (post : String → Payload → PostResult) (msg : String) :
    (send_teams_notification env post msg).2 = [] ∨
    ∃ url, env.teamsWebhookUrl = some url ∧
      (send_teams_notification env post msg).2 = [Event.posted url ⟨msg⟩] := by
  cases h : env.teamsWebhookUrl with
  | none => left; simp [send_teams_notification, h]
  | some url =>
    by_cases hc : (url == "" || strContains url "your_teams_webhook_url") = true
    · left; simp [send_teams_notification, h, hc]
    · right
      refine ⟨url, rfl, ?_⟩
      cases hp : post url ⟨msg⟩ with
      | transportError e => simp [send_teams_notification, h, hc, hp]
      | response s =>
        by_cases hs : raisesForStatus s = true <;>
          simp [send_teams_notification, h, hc, hp, hs]

theorem countQueries_append (a b : List Event) :
    countQueries (a ++ b) = countQueries a + countQueries b := by
  simp [countQueries, List.filter_append]

theorem countSleeps_append (a b : List Event) :
    countSleeps (a ++ b) = countSleeps a + countSleeps b := by
  simp [countSleeps, List.filter_append]

theorem notifiedMsgs_append (a b : List Event) :
    notifiedMsgs (a ++ b) = notifiedMsgs a ++ notifiedMsgs b := by
  simp [notifiedMsgs, List.filterMap_append]

theorem countQueries_notifierEvents (w : World) (msg : String) :
    countQueries (notifierEvents w msg) = 0 := by
  rcases send_snd_cases w.env w.post msg with h | ⟨url, _, h⟩ <;>
    simp [notifierEvents, countQueries, h]

theorem countSleeps_notifierEvents (w : World) (msg : String) :
    countSleeps (notifierEvents w msg) = 0 := by
  rcases send_snd_cases w.env w.post msg with h | ⟨url, _, h⟩ <;>
    simp [notifierEvents, countSleeps, h]

theorem notifiedMsgs_notifierEvents (w : World) (msg : String) :
    notifiedMsgs (notifierEvents w msg) = [msg] := by
  rcases send_snd_cases w.env w.post msg with h | ⟨url, _, h⟩ <;>
    simp [notifierEvents, notifiedMsgs, h]

theorem countQueries_notifyAll (w : World) (cs : List Case) :
    countQueries ((cs.map (fun c => notifierEvents w (caseMessage c))).flatten) = 0 := by
  induction cs with
  | nil => simp [countQueries]
  | cons c cs ih =>
    simp [List.map_cons, List.flatten_cons, countQueries_append, ih,
      countQueries_notifierEvents]

theorem countSleeps_notifyAll (w : World) (cs : List Case) :
    countSleeps ((cs.map (fun c => notifierEvents w (caseMessage c))).flatten) = 0 := by
  induction cs with
  | nil => simp [countSleeps]
  | cons c cs ih =>
    simp [List.map_cons, List.flatten_cons, countSleeps_append, ih,
      countSleeps_notifierEvents]

theorem notifiedMsgs_notifyAll (w : World) (cs : List Case) :
    notifiedMsgs ((cs.map (fun c => notifierEvents w (caseMessage c))).flatten) =
      cs.map caseMessage := by
  induction cs with
  | nil => simp [notifiedMsgs]
  | cons c cs ih =>
    simp [List.map_cons, List.flatten_cons, notifiedMsgs_append, ih,
      notifiedMsgs_notifierEvents]

theorem countQueries_cons_queried (q : String) (l : List Event) :
    countQueries (Event.queried q :: l) = countQueries l + 1 := by
  simp [countQueries, List.filter_cons]

theorem countQueries_cons_slept (s : Nat) (l : List Event) :
    countQueries (Event.slept s :: l) = countQueries l := by
  simp [countQueries, List.filter_cons]

theorem countSleeps_cons_queried (q : String) (l : List Event) :
    countSleeps (Event.queried q :: l) = countSleeps l := by
  simp [countSleeps, List.filter_cons]

theorem countSleeps_cons_slept (s : Nat) (l : List Event) :
    countSleeps (Event.slept s :: l) = countSleeps l + 1 := by
  simp [countSleeps, List.filter_cons]

theorem notifiedMsgs_cons_queried (q : String) (l : List Event) :
    notifiedMsgs (Event.queried q :: l) = notifiedMsgs l := by
  simp [notifiedMsgs, List.filterMap_cons]

theorem loopBody_eq (w : World) (i wm : Nat) :
    loopBody w i wm =
      if (get_new_cases (w.sfQuery i) (formatISO wm)).isEmpty then
        ([Event.queried (caseQuery (formatISO wm))], wm)
      else
        (Event.queried (caseQuery (formatISO wm)) ::
          ((get_new_cases (w.sfQuery i) (formatISO wm)).map
            (fun c => notifierEvents w (caseMessage c))).flatten,
         w.cycleTime i) := rfl

theorem loopBody_snd (w : World) (i wm : Nat) :
    (loopBody w i wm).2 =
      if (get_new_cases (w.sfQuery i) (formatISO wm)).isEmpty then wm
      else w.cycleTime i := by
  rw [loopBody_eq]
  by_cases h : (get_new_cases (w.sfQuery i) (formatISO wm)).isEmpty <;> simp [h]

theorem loopBody_notified (w : World) (i wm : Nat) :
    notifiedMsgs (loopBody w i wm).1 =
      if (get_new_cases (w.sfQuery i) (formatISO wm)).isEmpty then []
      else (get_new_cases (w.sfQuery i) (formatISO wm)).map caseMessage := by
  rw [loopBody_eq]
  by_cases h : (get_new_cases (w.sfQuery i) (formatISO wm)).isEmpty
  · simp [h, notifiedMsgs]
  · simp only [h, Bool.false_eq_true, if_false]
    rw [notifiedMsgs_cons_queried, notifiedMsgs_notifyAll]

theorem countQueries_loopBody (w : World) (i wm : Nat) :
    countQueries (loopBody w i wm).1 = 1 := by
  rw [loopBody_eq]
  by_cases h : (get_new_cases (w.sfQuery i) (formatISO wm)).isEmpty
  · simp [h, countQueries]
  · simp only [h, Bool.false_eq_true, if_false]
    rw [countQueries_cons_queried, countQueries_notifyAll]

theorem countSleeps_loopBody (w : World) (i wm : Nat) :
    countSleeps (loopBody w i wm).1 = 0 := by
  rw [loopBody_eq]
  by_cases h : (get_new_cases (w.sfQuery i) (formatISO wm)).isEmpty
  · simp [h, countSleeps]
  · simp only [h, Bool.false_eq_true, if_false]
    rw [countSleeps_cons_queried, countSleeps_notifyAll]

theorem mainLoop_once_eq (w : World) (fuel i wm : Nat) :
    mainLoop w true (fuel + 1) i wm = loopBody w i wm := by
  simp [mainLoop]

theorem mainLoop_loop_succ (w : World) (fuel i wm : Nat) :
    mainLoop w false (fuel + 1) i wm =
      ((loopBody w i wm).1 ++
        Event.slept 300 :: (mainLoop w false fuel (i + 1) (loopBody w i wm).2).1,
       (mainLoop w false fuel (i + 1) (loopBody w i wm).2).2) := by
  simp [mainLoop]

theorem countQueries_mainLoop (w : World) (n : Nat) :
    ∀ i wm, countQueries (mainLoop w false n i wm).1 = n := by
  induction n with
  | zero => intro i wm; simp [mainLoop, countQueries]
  | succ n ih =>
    intro i wm
    rw [mainLoop_loop_succ, countQueries_append, countQueries_cons_slept,
      countQueries_loopBody, ih]
    omega

theorem countSleeps_mainLoop (w : World) (n : Nat) :
    ∀ i wm, countSleeps (mainLoop w false n i wm).1 = n := by
  induction n with
  | zero => intro i wm; simp [mainLoop, countSleeps]
  | succ n ih =>
    intro i wm
    rw [mainLoop_loop_succ, countSleeps_append, countSleeps_cons_slept,
      countSleeps_loopBody, ih]
    omega

theorem main_eq (w : World) (argv : List String) (fuel : Nat) (sf : Session)
    (h : w.login = LoginResult.success sf) :
    main w argv fuel =
      ((if argv.contains "--once" then [] else notifierEvents w startupMessage) ++
        (mainLoop w (argv.contains "--once") fuel 0
          (w.startTime - (if argv.contains "--once" then 15 else 5) * 60)).1,
       some (mainLoop w (argv.contains "--once") fuel 0
          (w.startTime - (if argv.contains "--once" then 15 else 5) * 60)).2) := by
  simp [main, h, connect_to_salesforce]

end GustavTools

namespace GustavTools

/-! ## Claims -/

/-- C1, counterexample: in a single-shot run whose only fetch returns zero
records, the final watermark is still the initial lookback value
1704066600 (start time minus 900 s) and not the wall-clock time 1704068000
read at the end of the cycle. This refutes the claim that a cycle finding
no cases still advances the watermark to the current time. -/
theorem watermark_not_advanced_on_empty_fetch :
    (main emptyFetchWorld ["--once"] 1).2 = some 1704066600 ∧
    emptyFetchWorld.cycleTime 0 = 1704068000 ∧
    (1704066600 : Nat) ≠ 1704068000 :=
  ⟨rfl, rfl, by decide⟩

/-- C1, amended: after a fetch-notify cycle the watermark equals the current
wall-clock time if and only if the fetch returned at least one record; when
the fetch returns zero records the watermark is left unchanged (the update
at src/main.py line 119 sits inside the `if new_cases:` branch). -/
theorem cycle_watermark_update (w : World) (i wm : Nat) :
    (loopBody w i wm).2 =
      if (get_new_cases (w.sfQuery i) (formatISO wm)).isEmpty then wm
      else w.cycleTime i :=
  loopBody_snd w i wm

/-- C2: within a cycle whose end-of-cycle clock reading is not earlier than
the current watermark (wall clocks are non-decreasing), the watermark after
the cycle is greater than or equal to the watermark before it, whether or
not cases were found. -/
theorem watermark_monotone (w : World) (i wm : Nat) (h : wm ≤ w.cycleTime i) :
    wm ≤ (loopBody w i wm).2 := by
  rw [loopBody_snd]
  by_cases hc : (get_new_cases (w.sfQuery i) (formatISO wm)).isEmpty <;> simp [hc, h]

/-- Witness for C2: a concrete cycle of `emptyFetchWorld`. -/
theorem watermark_monotone_witness :
    (1704066600 : Nat) ≤ emptyFetchWorld.cycleTime 0 ∧
    (1704066600 : Nat) ≤ (loopBody emptyFetchWorld 0 1704066600).2 :=
  ⟨by decide, watermark_monotone emptyFetchWorld 0 1704066600 (by decide)⟩

/-- C3: `get_new_cases` returns `[]` whenever the query raises, the records
of the result when the query succeeds, and `[]` when a successful result
carries no `records` key; it never propagates the exception (it is a total
function into `List Case`). -/
theorem get_new_cases_spec (q : String → QueryOutcome) (lct : String) :
    (∀ e, q (caseQuery lct) = QueryOutcome.err e → get_new_cases q lct = []) ∧
    (∀ recs, q (caseQuery lct) = QueryOutcome.ok (some recs) →
      get_new_cases q lct = recs) ∧
    (q (caseQuery lct) = QueryOutcome.ok none → get_new_cases q lct = []) := by
  refine ⟨fun e h => ?_, fun recs h => ?_, fun h => ?_⟩ <;> simp [get_new_cases, h]

/-- Witness for C3: a query oracle that always raises yields `[]`. -/
theorem get_new_cases_spec_witness :
    get_new_cases qErrOracle "2024-01-01T00:00:00Z" = [] :=
  (get_new_cases_spec qErrOracle "2024-01-01T00:00:00Z").1 "boom" rfl

/-- C4: the Notifier returns `false` with no HTTP call attempted when the
webhook URL is unset, empty, or contains the placeholder; returns `false`
(after one attempted call) on a transport error or an HTTP error status;
returns `true` only when the POST produced a successful response. -/
theorem send_teams_notification_spec (env : Env)
    (post : String → Payload → PostResult) (msg : String) :
    (env.teamsWebhookUrl = none → send_teams_notification env post msg = (false, [])) ∧
    (∀ url, env.teamsWebhookUrl = some url →
      (url = "" ∨ strContains url "your_teams_webhook_url" = true) →
      send_teams_notification env post msg = (false, [])) ∧
    (∀ url e, env.teamsWebhookUrl = some url → url ≠ "" →
      strContains url "your_teams_webhook_url" = false →
      post url ⟨msg⟩ = PostResult.transportError e →
      send_teams_notification env post msg = (false, [Event.posted url ⟨msg⟩])) ∧
    (∀ url s, env.teamsWebhookUrl = some url → url ≠ "" →
      strContains url "your_teams_webhook_url" = false →
      post url ⟨msg⟩ = PostResult.response s → raisesForStatus s = true →
      send_teams_notification env post msg = (false, [Event.posted url ⟨msg⟩])) ∧
    (∀ url s, env.teamsWebhookUrl = some url → url ≠ "" →
      strContains url "your_teams_webhook_url" = false →
      post url ⟨msg⟩ = PostResult.response s → raisesForStatus s = false →
      send_teams_notification env post msg = (true, [Event.posted url ⟨msg⟩])) ∧
    ((send_teams_notification env post msg).1 = true →
      ∃ url s, env.teamsWebhookUrl = some url ∧
        post url ⟨msg⟩ = PostResult.response s ∧ raisesForStatus s = false) := by
  refine ⟨?_, ?_, ?_, ?_, ?_, ?_⟩
  · intro h; simp [send_teams_notification, h]
  · intro url hu hbad
    rcases hbad with h | h
    · subst h; simp [send_teams_notification, hu]
    · simp [send_teams_notification, hu, h]
  · intro url e hu hne hpl hp
    simp [send_teams_notification, hu, hne, hpl, hp]
  · intro url s hu hne hpl hp hs
    simp [send_teams_notification, hu, hne, hpl, hp, hs]
  · intro url s hu hne hpl hp hs
    simp [send_teams_notification, hu, hne, hpl, hp, hs]
  · intro h
    cases henv : env.teamsWebhookUrl with
    | none => rw [send_teams_notification, henv] at h; simp at h
    | some url =>
      by_cases hc : (url == "" || strContains url "your_teams_webhook_url") = true
      · rw [send_teams_notification, henv] at h; simp [hc] at h
      · cases hp : post url ⟨msg⟩ with
        | transportError e =>
          rw [send_teams_notification, henv] at h; simp [hc, hp] at h
        | response s =>
          by_cases hs : raisesForStatus s = true
          · rw [send_teams_notification, henv] at h; simp [hc, hp, hs] at h
          · exact ⟨url, s, rfl, hp, by simpa using hs⟩

/-- Witness for C4: unset webhook URL gives `false` with no POST. -/
theorem send_teams_notification_spec_witness :
    send_teams_notification envNoHook postOkOracle "hello" = (false, []) :=
  (send_teams_notification_spec envNoHook postOkOracle "hello").1 rfl

/-- C5: whenever authentication fails (the Authenticator returns no session,
as it does for a rejected login or any other exception from the login call,
including the one the CRM client raises when a credential is missing),
`main` returns with an empty event trace (no query, no notification, no
sleep) and no watermark ever computed. -/
theorem auth_failure_halts (w : World) (argv : List String) (fuel : Nat)
    (h : connect_to_salesforce w.login = none) :
    main w argv fuel = ([], none) := by
  simp [main, h]

/-- Witness for C5: a run whose login raised an authentication error. -/
theorem auth_failure_halts_witness :
    main authFailWorld [] 5 = ([], none) :=
  auth_failure_halts authFailWorld [] 5 rfl

/-- C10: `connect_to_salesforce` is total over every outcome of the login
call: it returns the session exactly when the login succeeded, and returns
`None` (never propagating) for an authentication failure or any other
exception. -/
theorem connect_to_salesforce_total :
    (∀ o sf, connect_to_salesforce o = some sf ↔ o = LoginResult.success sf) ∧
    (∀ e, connect_to_salesforce (LoginResult.authFailed e) = none) ∧
    (∀ e, connect_to_salesforce (LoginResult.otherError e) = none) := by
  refine ⟨fun o sf => ?_, fun e => rfl, fun e => rfl⟩
  cases o <;> simp [connect_to_salesforce]

end GustavTools

namespace GustavTools

/-- C6: in a cycle whose fetch returned a non-empty record sequence, the
Notifier is invoked exactly once per record and in the order the records
were received, and the message for any case contains its case number, its
subject (the placeholder `Sem Assunto` when absent) and the deep link
`<base-url>/lightning/r/Case/<id>/view` built from its identifier. -/
theorem notify_once_per_case_in_order (w : World) (i wm : Nat) (c : Case)
    (h : get_new_cases (w.sfQuery i) (formatISO wm) ≠ []) :
    notifiedMsgs (loopBody w i wm).1 =
      (get_new_cases (w.sfQuery i) (formatISO wm)).map caseMessage ∧
    (∃ p q, caseMessage c = p ++ (c.CaseNumber ++ q)) ∧
    (∃ p q, caseMessage c = p ++ (c.Subject.getD "Sem Assunto" ++ q)) ∧
    (∃ p q, caseMessage c = p ++ (caseLink c.Id ++ q)) ∧
    caseLink c.Id = SF_INSTANCE_URL ++ "/lightning/r/Case/" ++ c.Id ++ "/view" := by
  have hempty : (get_new_cases (w.sfQuery i) (formatISO wm)).isEmpty = false := by
    simp [List.isEmpty_iff, h]
  refine ⟨?_, ?_, ?_, ?_, rfl⟩
  · rw [loopBody_notified, hempty]
    simp
  · exact ⟨"🔔 **Novo Caso Recebido!**\n\n**Número:** ",
      "\n**Assunto:** " ++ (c.Subject.getD "Sem Assunto") ++
        "\n[Visualizar no Salesforce](" ++ caseLink c.Id ++ ")",
      by simp [caseMessage, String.append_assoc]⟩
  · exact ⟨"🔔 **Novo Caso Recebido!**\n\n**Número:** " ++ c.CaseNumber ++
        "\n**Assunto:** ",
      "\n[Visualizar no Salesforce](" ++ caseLink c.Id ++ ")",
      by simp [caseMessage, String.append_assoc]⟩
  · exact ⟨"🔔 **Novo Caso Recebido!**\n\n**Número:** " ++ c.CaseNumber ++
        "\n**Assunto:** " ++ (c.Subject.getD "Sem Assunto") ++
        "\n[Visualizar no Salesforce](",
      ")",
      by simp [caseMessage, String.append_assoc]⟩

/-- Witness for C6: the two-record fetch of `twoCaseWorld`, checked on the
record without a subject. -/
theorem notify_once_per_case_in_order_witness :
    notifiedMsgs (loopBody twoCaseWorld 0 1704067200).1 =
      (get_new_cases (twoCaseWorld.sfQuery 0) (formatISO 1704067200)).map caseMessage ∧
    (∃ p q, caseMessage caseB = p ++ (caseB.CaseNumber ++ q)) ∧
    (∃ p q, caseMessage caseB = p ++ (caseB.Subject.getD "Sem Assunto" ++ q)) ∧
    (∃ p q, caseMessage caseB = p ++ (caseLink caseB.Id ++ q)) ∧
    caseLink caseB.Id = SF_INSTANCE_URL ++ "/lightning/r/Case/" ++ caseB.Id ++ "/view" :=
  notify_once_per_case_in_order twoCaseWorld 0 1704067200 caseB (by decide)

/-- C9: in a cycle whose fetch returned at least one record, even when the
Notifier fails for one of the records, every record is still passed to the
Notifier in order, the watermark advances to the end-of-cycle time, and a
failed record whose creation time is at or below that time no longer
matches the fetch filter at any later watermark, so it is never retried. -/
theorem failed_notification_never_retried (w : World) (i wm w2 : Nat) (c : Case)
    (hmem : c ∈ get_new_cases (w.sfQuery i) (formatISO wm))
    (_hfail : (send_teams_notification w.env w.post (caseMessage c)).1 = false)
    (hcreated : c.CreatedDate ≤ w.cycleTime i)
    (hw2 : w.cycleTime i ≤ w2) :
    notifiedMsgs (loopBody w i wm).1 =
      (get_new_cases (w.sfQuery i) (formatISO wm)).map caseMessage ∧
    (loopBody w i wm).2 = w.cycleTime i ∧
    caseMatches w2 c = false := by
  have hne : get_new_cases (w.sfQuery i) (formatISO wm) ≠ [] :=
    List.ne_nil_of_mem hmem
  have hempty : (get_new_cases (w.sfQuery i) (formatISO wm)).isEmpty = false := by
    simp [List.isEmpty_iff, hne]
  refine ⟨?_, ?_, ?_⟩
  · rw [loopBody_notified, hempty]; simp
  · rw [loopBody_snd, hempty]; simp
  · have hlt : ¬ (w2 < c.CreatedDate) := by omega
    simp [caseMatches, hlt]

/-- Witness for C9: `failPostWorld`, where every POST raises, applied to the
record `caseB` and a later watermark equal to the end-of-cycle time. -/
theorem failed_notification_never_retried_witness :
    notifiedMsgs (loopBody failPostWorld 0 1704067200).1 =
      (get_new_cases (failPostWorld.sfQuery 0) (formatISO 1704067200)).map caseMessage ∧
    (loopBody failPostWorld 0 1704067200).2 = failPostWorld.cycleTime 0 ∧
    caseMatches 1704068000 caseB = false :=
  failed_notification_never_retried failPostWorld 0 1704067200 1704068000 caseB
    (by decide) (by decide) (by decide) (by decide)

end GustavTools

namespace GustavTools

theorem mainLoop_once_any (w : World) (fuel i wm : Nat) (h : 1 ≤ fuel) :
    mainLoop w true fuel i wm = loopBody w i wm := by
  cases fuel with
  | zero => omega
  | succ n => exact mainLoop_once_eq w n i wm

/-- C7: with a successful login, a run invoked with `--once` performs exactly
one fetch cycle and no sleep, and its outcome does not change with any
larger fuel bound (it terminates after the first cycle); without `--once`,
the run unfolded to any fuel `n` performs exactly `n` fetch cycles and `n`
sleeps, and each unfolding is one cycle followed by a 300-second sleep
followed by the rest of the loop. -/
theorem scheduler_modes (w : World) (sf : Session) (onceArgv loopArgv : List String)
    (n i wm : Nat)
    (hlogin : w.login = LoginResult.success sf)
    (honce : onceArgv.contains "--once" = true)
    (hloop : loopArgv.contains "--once" = false) :
    main w onceArgv (n + 1) = main w onceArgv 1 ∧
    countQueries (main w onceArgv (n + 1)).1 = 1 ∧
    countSleeps (main w onceArgv (n + 1)).1 = 0 ∧
    countQueries (main w loopArgv n).1 = n ∧
    countSleeps (main w loopArgv n).1 = n ∧
    (mainLoop w false (n + 1) i wm).1 =
      (loopBody w i wm).1 ++
        Event.slept 300 :: (mainLoop w false n (i + 1) (loopBody w i wm).2).1 := by
  refine ⟨?_, ?_, ?_, ?_, ?_, ?_⟩
  · rw [main_eq w onceArgv (n + 1) sf hlogin, main_eq w onceArgv 1 sf hlogin]
    simp only [honce, if_true]
    rw [mainLoop_once_any w (n + 1) 0 _ (by omega), mainLoop_once_any w 1 0 _ (by omega)]
  · rw [main_eq w onceArgv (n + 1) sf hlogin]
    simp only [honce, if_true]
    rw [mainLoop_once_any w (n + 1) 0 _ (by omega)]
    rw [List.nil_append, countQueries_loopBody]
  · rw [main_eq w onceArgv (n + 1) sf hlogin]
    simp only [honce, if_true]
    rw [mainLoop_once_any w (n + 1) 0 _ (by omega)]
    rw [List.nil_append, countSleeps_loopBody]
  · rw [main_eq w loopArgv n sf hlogin]
    simp only [hloop, Bool.false_eq_true, if_false]
    rw [countQueries_append, countQueries_notifierEvents, countQueries_mainLoop]
    omega
  · rw [main_eq w loopArgv n sf hlogin]
    simp only [hloop, Bool.false_eq_true, if_false]
    rw [countSleeps_append, countSleeps_notifierEvents, countSleeps_mainLoop]
    omega
  · rw [mainLoop_loop_succ]

/-- Witness for C7: `emptyFetchWorld` with `--once` and fuel 3 versus 1, and
the loop mode with fuel 2. -/
theorem scheduler_modes_witness :
    main emptyFetchWorld ["--once"] 3 = main emptyFetchWorld ["--once"] 1 ∧
    countQueries (main emptyFetchWorld ["--once"] 3).1 = 1 ∧
    countSleeps (main emptyFetchWorld ["--once"] 3).1 = 0 ∧
    countQueries (main emptyFetchWorld [] 2).1 = 2 ∧
    countSleeps (main emptyFetchWorld [] 2).1 = 2 ∧
    (mainLoop emptyFetchWorld false 3 0 1704067200).1 =
      (loopBody emptyFetchWorld 0 1704067200).1 ++
        Event.slept 300 ::
          (mainLoop emptyFetchWorld false 2 1
            (loopBody emptyFetchWorld 0 1704067200).2).1 :=
  scheduler_modes emptyFetchWorld ⟨1⟩ ["--once"] [] 2 0 1704067200 rfl (by decide) rfl

end GustavTools

namespace GustavTools

theorem digitChar_isDigit (n : Nat) (h : n < 10) : (digitChar n).isDigit = true := by
  interval_cases n <;> decide

theorem decDigitsAux_one (fuel n : Nat) (h : n < 10) (hf : 1 ≤ fuel) :
    decDigitsAux fuel n = [digitChar n] := by
  cases fuel with
  | zero => omega
  | succ f => rw [decDigitsAux, if_pos h]

theorem decDigitsAux_two (fuel n : Nat) (h1 : 10 ≤ n) (h2 : n < 100) (hf : 2 ≤ fuel) :
    decDigitsAux fuel n = [digitChar (n / 10), digitChar (n % 10)] := by
  cases fuel with
  | zero => omega
  | succ f =>
    rw [decDigitsAux, if_neg (by omega),
      decDigitsAux_one f (n / 10) (by omega) (by omega)]
    rfl

theorem decDigitsAux_three (fuel n : Nat) (h1 : 100 ≤ n) (h2 : n < 1000) (hf : 3 ≤ fuel) :
    decDigitsAux fuel n =
      [digitChar (n / 100), digitChar (n / 10 % 10), digitChar (n % 10)] := by
  cases fuel with
  | zero => omega
  | succ f =>
    rw [decDigitsAux, if_neg (by omega),
      decDigitsAux_two f (n / 10) (by omega) (by omega) (by omega)]
    have e1 : n / 10 / 10 = n / 100 := by omega
    rw [e1]
    rfl

theorem decDigitsAux_four (fuel n : Nat) (h1 : 1000 ≤ n) (h2 : n < 10000) (hf : 4 ≤ fuel) :
    decDigitsAux fuel n = [digitChar (n / 1000), digitChar (n / 100 % 10),
      digitChar (n / 10 % 10), digitChar (n % 10)] := by
  cases fuel with
  | zero => omega
  | succ f =>
    rw [decDigitsAux, if_neg (by omega),
      decDigitsAux_three f (n / 10) (by omega) (by omega) (by omega)]
    have e1 : n / 10 / 100 = n / 1000 := by omega
    have e2 : n / 10 / 10 % 10 = n / 100 % 10 := by omega
    rw [e1, e2]
    rfl

theorem decDigits_one (n : Nat) (h : n < 10) : decDigits n = [digitChar n] :=
  decDigitsAux_one (n + 1) n h (by omega)

theorem decDigits_two (n : Nat) (h1 : 10 ≤ n) (h2 : n < 100) :
    decDigits n = [digitChar (n / 10), digitChar (n % 10)] :=
  decDigitsAux_two (n + 1) n h1 h2 (by omega)

theorem decDigits_four (n : Nat) (h1 : 1000 ≤ n) (h2 : n < 10000) :
    decDigits n = [digitChar (n / 1000), digitChar (n / 100 % 10),
      digitChar (n / 10 % 10), digitChar (n % 10)] :=
  decDigitsAux_four (n + 1) n h1 h2 (by omega)

theorem toDecString_four_digits (n : Nat) (h1 : 1000 ≤ n) (h2 : n < 10000) :
    ∃ a b c d, (toDecString n).data = [a, b, c, d] ∧
      a.isDigit = true ∧ b.isDigit = true ∧ c.isDigit = true ∧ d.isDigit = true := by
  refine ⟨digitChar (n / 1000), digitChar (n / 100 % 10), digitChar (n / 10 % 10),
    digitChar (n % 10), ?_, ?_, ?_, ?_, ?_⟩
  · rw [toDecString, decDigits_four n h1 h2]
  · exact digitChar_isDigit _ (by omega)
  · exact digitChar_isDigit _ (by omega)
  · exact digitChar_isDigit _ (by omega)
  · exact digitChar_isDigit _ (by omega)

theorem pad2_two_digits (n : Nat) (h : n < 100) :
    ∃ a b, (pad2 n).data = [a, b] ∧ a.isDigit = true ∧ b.isDigit = true := by
  by_cases h1 : n < 10
  · refine ⟨'0', digitChar n, ?_, rfl, digitChar_isDigit n h1⟩
    rw [pad2, if_pos h1, String.data_append, toDecString, decDigits_one n h1]
    rfl
  · refine ⟨digitChar (n / 10), digitChar (n % 10), ?_,
      digitChar_isDigit _ (by omega), digitChar_isDigit _ (by omega)⟩
    rw [pad2, if_neg h1, toDecString, decDigits_two n (by omega) h]

theorem civilFromDays_bounds (z : Nat) (hz : z ≤ 2932896) :
    1000 ≤ (civilFromDays z).1 ∧ (civilFromDays z).1 < 10000 ∧
    (civilFromDays z).2.1 < 100 ∧ (civilFromDays z).2.2 < 100 := by
  unfold civilFromDays
  dsimp only
  split_ifs <;> refine ⟨by omega, by omega, by omega, by omega⟩

end GustavTools

namespace GustavTools

theorem isISO_of_data (s : String) (a b c d m1 m2 e1 e2 f1 f2 g1 g2 k1 k2 : Char)
    (hdata : s.data =
      [a, b, c, d, '-', m1, m2, '-', e1, e2, 'T', f1, f2, ':', g1, g2, ':', k1, k2, 'Z'])
    (ha : a.isDigit = true) (hb : b.isDigit = true) (hc : c.isDigit = true)
    (hd : d.isDigit = true) (hm1 : m1.isDigit = true) (hm2 : m2.isDigit = true)
    (he1 : e1.isDigit = true) (he2 : e2.isDigit = true) (hf1 : f1.isDigit = true)
    (hf2 : f2.isDigit = true) (hg1 : g1.isDigit = true) (hg2 : g2.isDigit = true)
    (hk1 : k1.isDigit = true) (hk2 : k2.isDigit = true) :
    isISO8601UTC s = true := by
  unfold isISO8601UTC
  rw [hdata]
  simp [ha, hb, hc, hd, hm1, hm2, he1, he2, hf1, hf2, hg1, hg2, hk1, hk2]

theorem isISO_formatISO (t : Nat) (h : t ≤ 253402300799) :
    isISO8601UTC (formatISO t) = true := by
  obtain ⟨hy1, hy2, hmo, hdy⟩ := civilFromDays_bounds (t / 86400) (by omega)
  obtain ⟨a, b, c, d, hyd, ha, hb, hc, hd4⟩ := toDecString_four_digits _ hy1 hy2
  obtain ⟨m1, m2, hmd, hm1, hm2⟩ := pad2_two_digits _ hmo
  obtain ⟨e1, e2, hed, he1, he2⟩ := pad2_two_digits _ hdy
  obtain ⟨f1, f2, hfd, hf1, hf2⟩ := pad2_two_digits (t % 86400 / 3600) (by omega)
  obtain ⟨g1, g2, hgd, hg1, hg2⟩ := pad2_two_digits (t % 86400 % 3600 / 60) (by omega)
  obtain ⟨k1, k2, hkd, hk1, hk2⟩ := pad2_two_digits (t % 86400 % 60) (by omega)
  refine isISO_of_data (formatISO t) a b c d m1 m2 e1 e2 f1 f2 g1 g2 k1 k2 ?_
    ha hb hc hd4 hm1 hm2 he1 he2 hf1 hf2 hg1 hg2 hk1 hk2
  rw [show formatISO t =
      toDecString (civilFromDays (t / 86400)).1 ++ "-" ++
        pad2 (civilFromDays (t / 86400)).2.1 ++ "-" ++
        pad2 (civilFromDays (t / 86400)).2.2 ++ "T" ++
        pad2 (t % 86400 / 3600) ++ ":" ++ pad2 (t % 86400 % 3600 / 60) ++ ":" ++
        pad2 (t % 86400 % 60) ++ "Z" from rfl]
  rw [String.data_append, String.data_append, String.data_append, String.data_append,
    String.data_append, String.data_append, String.data_append, String.data_append,
    String.data_append, String.data_append, String.data_append]
  rw [hyd, hmd, hed, hfd, hgd, hkd]
  rfl

/-- C8: with a successful login, before the first cycle `main` holds the
initial watermark `startTime - 60 * lookback`, with a 15-minute lookback in
single-shot mode and a 5-minute lookback in loop mode, and the query string
formatted from it is a CRM-compatible ISO-8601 UTC date-time (for any start
time up to year 9999). -/
theorem initial_watermark_lookback (w : World) (sf : Session) (argv : List String)
    (hlogin : w.login = LoginResult.success sf)
    (ht : w.startTime ≤ 253402300799) :
    (main w argv 0).2 =
      some (w.startTime - (if argv.contains "--once" then 15 else 5) * 60) ∧
    isISO8601UTC
      (formatISO (w.startTime - (if argv.contains "--once" then 15 else 5) * 60)) =
      true := by
  constructor
  · rw [main_eq w argv 0 sf hlogin]
    rfl
  · exact isISO_formatISO _ (by omega)

/-- Witness for C8: `emptyFetchWorld` started with `--once`. -/
theorem initial_watermark_lookback_witness :
    (main emptyFetchWorld ["--once"] 0).2 =
      some (emptyFetchWorld.startTime -
        (if (["--once"] : List String).contains "--once" then 15 else 5) * 60) ∧
    isISO8601UTC
      (formatISO (emptyFetchWorld.startTime -
        (if (["--once"] : List String).contains "--once" then 15 else 5) * 60)) =
      true :=
  initial_watermark_lookback emptyFetchWorld ⟨1⟩ ["--once"] rfl (by decide)

end GustavTools
